import Mathlib

/-!
Verification development for the `antithesis` Vulkan renderer
(`src/app.rs`, `src/device.rs`, `src/pipeline.rs`, `src/swapchain.rs`,
`src/sync.rs`).

The Rust sources are shallowly embedded: each embedded definition is a
direct translation of the corresponding Rust function, with opaque GPU
handles modelled as records carrying an identifier, `u32` arithmetic
carried out on `Nat` with explicit `% 2 ^ 32` where wrap-around is
possible, and Rust panics (`expect` / `unwrap`) modelled as `Option`
(`none` = the process terminates) or as an explicit fatal outcome.
Results returned by the `ash` GPU API (e.g. `acquire_next_image`,
`queue_present`) are supplied as oracle parameters of type `Except`:
`Except.error` corresponds to `Err(vk::Result)` (in particular
`ERROR_OUT_OF_DATE_KHR`), `Except.ok` to `Ok` (with the `SUBOPTIMAL_KHR`
boolean flag inside).
-/

namespace Antithesis

/-- The `u32::MAX` sentinel value tested by `choose_extent`. -/
def U32_MAX : Nat := 2 ^ 32 - 1

/-- The modulus of `u32` arithmetic. -/
def U32_MOD : Nat := 2 ^ 32

/-- The `vk::Format` values this development distinguishes; every other
format is collapsed into `other`. -/
inductive VkFormat where
  | B8G8R8A8_SRGB
  | R8G8B8A8_UNORM
  | other (code : Nat)
deriving DecidableEq

/-- The `vk::ColorSpaceKHR` values this development distinguishes. -/
inductive ColorSpaceKHR where
  | SRGB_NONLINEAR
  | other (code : Nat)
deriving DecidableEq

/-- Mirror of `vk::SurfaceFormatKHR`. -/
structure SurfaceFormatKHR where
  format : VkFormat
  color_space : ColorSpaceKHR
deriving DecidableEq

/-- Mirror of `vk::PresentModeKHR`. -/
inductive PresentModeKHR where
  | IMMEDIATE
  | MAILBOX
  | FIFO
  | FIFO_RELAXED
deriving DecidableEq

/-- Mirror of `vk::Extent2D` (`width` and `height` are `u32` values). -/
structure Extent2D where
  width : Nat
  height : Nat
deriving DecidableEq

/-- The fields of `vk::SurfaceCapabilitiesKHR` that the embedded code
reads. -/
structure SurfaceCapabilitiesKHR where
  min_image_count : Nat
  max_image_count : Nat
  current_extent : Extent2D
  min_image_extent : Extent2D
  max_image_extent : Extent2D
deriving DecidableEq

/-- Mirror of `SwapChainSupportDetail` from `src/swapchain.rs` (the
result of `SwapChainSupportDetail::query`). -/
structure SwapChainSupportDetail where
  capabilities : SurfaceCapabilitiesKHR
  formats : List SurfaceFormatKHR
  present_modes : List PresentModeKHR
deriving DecidableEq

/-- The predicate of the loop in `choose_format` (`src/swapchain.rs`
lines 48-54): an 8-bit BGRA sRGB format with non-linear color space. -/
def isPreferredFormat (f : SurfaceFormatKHR) : Bool :=
  f.format == VkFormat.B8G8R8A8_SRGB && f.color_space == ColorSpaceKHR.SRGB_NONLINEAR

/-- Translation of `SwapChainSupportDetail::choose_format`
(`src/swapchain.rs` lines 46-58).  The loop returns the first preferred
entry; the fallback is `self.formats.first().unwrap()`, whose panic on
an empty list is modelled by `none` (`List.head?` of `[]`). -/
def choose_format (d : SwapChainSupportDetail) : Option SurfaceFormatKHR :=
  match d.formats.find? isPreferredFormat with
  | some f => some f
  | none => d.formats.head?

/-- Translation of `SwapChainSupportDetail::choose_present_mode`
(`src/swapchain.rs` lines 60-70): the first `MAILBOX` entry if any,
else `FIFO`. -/
def choose_present_mode (d : SwapChainSupportDetail) : PresentModeKHR :=
  match d.present_modes.find? (fun m => m == PresentModeKHR.MAILBOX) with
  | some m => m
  | none => PresentModeKHR.FIFO

/-- Translation of `SwapChainSupportDetail::choose_extent`
(`src/swapchain.rs` lines 72-82).  `1280.max(lo).min(hi)` in Rust is
`min (max 1280 lo) hi`; the window size 1280 x 720 is hard-coded in the
source (and is also the size `run_app` requests for the window,
`src/app.rs` line 179). -/
def choose_extent (d : SwapChainSupportDetail) : Extent2D :=
  if d.capabilities.current_extent.width ≠ U32_MAX then
    d.capabilities.current_extent
  else
    { width := min (max 1280 d.capabilities.min_image_extent.width)
        d.capabilities.max_image_extent.width
      height := min (max 720 d.capabilities.min_image_extent.height)
        d.capabilities.max_image_extent.height }

/-- The image-count computation of `create_swapchain` (`src/swapchain.rs`
lines 99-105).  `min_image_count` is a `u32`, so the `+ 1` is taken
modulo `2 ^ 32`. -/
def swapchain_image_count (caps : SurfaceCapabilitiesKHR) : Nat :=
  let image_count := (caps.min_image_count + 1) % U32_MOD
  if 0 < caps.max_image_count then
    min image_count caps.max_image_count
  else
    image_count

/-! Device selection (`src/device.rs`). -/

/-- The per-family data `find_queue_family` reads: the family's
`queue_count` and `queue_flags.contains(GRAPHICS)`, and the result of
`get_physical_device_surface_support` for this family index on the
given surface. -/
structure QueueFamilyProperties where
  queue_count : Nat
  supports_graphics : Bool
  supports_present : Bool
deriving DecidableEq

/-- A physical device together with everything the suitability checks
query about it (queue families in index order, the names of its
available device extensions, and the surface formats / present modes
reported for the given surface). -/
structure PhysicalDevice where
  queue_families : List QueueFamilyProperties
  available_extensions : List String
  formats : List SurfaceFormatKHR
  present_modes : List PresentModeKHR
deriving DecidableEq

/-- Mirror of `QueueFamilyIndices` (`src/device.rs` lines 10-26). -/
structure QueueFamilyIndices where
  graphics_family : Option Nat
  present_family : Option Nat
deriving DecidableEq

/-- Translation of `QueueFamilyIndices::is_complete`. -/
def QueueFamilyIndices.is_complete (q : QueueFamilyIndices) : Bool :=
  q.graphics_family.isSome && q.present_family.isSome

/-- The loop body of `find_queue_family` (`src/device.rs` lines 39-66):
for each family in order, record the index as graphics-capable when
`queue_count > 0` and the family supports graphics, likewise for
presentation support, and break out of the loop as soon as both indices
are populated. -/
def find_queue_family_loop :
    List QueueFamilyProperties → Nat → QueueFamilyIndices → QueueFamilyIndices
  | [], _, acc => acc
  | qf :: rest, index, acc =>
    let acc1 := if 0 < qf.queue_count ∧ qf.supports_graphics = true then
        { acc with graphics_family := some index } else acc
    let acc2 := if 0 < qf.queue_count ∧ qf.supports_present = true then
        { acc1 with present_family := some index } else acc1
    if acc2.is_complete then acc2 else find_queue_family_loop rest (index + 1) acc2

/-- Translation of `find_queue_family` (`src/device.rs` lines 29-69). -/
def find_queue_family (d : PhysicalDevice) : QueueFamilyIndices :=
  find_queue_family_loop d.queue_families 0 { graphics_family := none, present_family := none }

/-- The names of `DEVICE_EXTENSIONS` (`src/device.rs` lines 76-78). -/
def DEVICE_EXTENSIONS : List String := ["VK_KHR_swapchain"]

/-- Translation of `check_device_extension_support` (`src/device.rs`
lines 94-127): the required name set minus the available names is empty,
i.e. every required extension name occurs among the available ones. -/
def check_device_extension_support (d : PhysicalDevice) : Bool :=
  DEVICE_EXTENSIONS.all (fun ext => d.available_extensions.contains ext)

/-- Translation of `is_physical_device_suitable` (`src/device.rs` lines
129-151). -/
def is_physical_device_suitable (d : PhysicalDevice) : Bool :=
  let indices := find_queue_family d
  let is_queue_family_supported := indices.is_complete
  let is_device_extension_supported := check_device_extension_support d
  let is_swapchain_supported :=
    if is_device_extension_supported then
      !d.formats.isEmpty && !d.present_modes.isEmpty
    else
      false
  is_queue_family_supported && is_device_extension_supported && is_swapchain_supported

/-- Translation of `pick_physical_device` (`src/device.rs` lines
155-171): the first suitable device in enumeration order; `none` models
the fatal `expect("Failed to find a suitable GPU!")`. -/
def pick_physical_device (physical_devices : List PhysicalDevice) : Option PhysicalDevice :=
  physical_devices.find? is_physical_device_suitable

/-! Swapchain-derived resources (`src/swapchain.rs`, `src/app.rs`,
`src/sync.rs`). -/

/-- An opaque `vk::Image` handle. -/
structure Image where
  id : Nat
deriving DecidableEq

/-- A `vk::ImageView`, tied to the image it views (`create_image_view`
makes one 2D color view per image). -/
structure ImageView where
  image : Image
deriving DecidableEq

/-- Translation of `create_image_views` (`src/swapchain.rs` lines
159-178): one view per swapchain image, in order. -/
def create_image_views (images : List Image) : List ImageView :=
  images.map (fun image => { image := image })

/-- A `vk::Framebuffer` with the attributes `create_framebuffers` sets
from its image view and the swapchain extent. -/
structure Framebuffer where
  attachment : ImageView
  width : Nat
  height : Nat
  layers : Nat
deriving DecidableEq

/-- Translation of `create_framebuffers` (`src/app.rs` lines 341-369):
the loop pushes one framebuffer per image view, with dimensions taken
from the swapchain extent and a single layer. -/
def create_framebuffers (image_views : List ImageView) (swapchain_extent : Extent2D) :
    List Framebuffer :=
  image_views.map (fun image_view =>
    { attachment := image_view
      width := swapchain_extent.width
      height := swapchain_extent.height
      layers := 1 })

/-- An opaque `vk::CommandBuffer` handle. -/
structure CommandBuffer where
  id : Nat
deriving DecidableEq

/-- An opaque `vk::Buffer` handle (the vertex buffer). -/
structure Buffer where
  id : Nat
deriving DecidableEq

/-- A `vk::ClearColorValue`: the four `float32` components, which the
source only ever fills with the exact literals `0.0` and `1.0`,
represented exactly as rationals. -/
structure ClearColorValue where
  r : Rat
  g : Rat
  b : Rat
  a : Rat
deriving DecidableEq

/-- The single clear value recorded by both command-buffer recorders:
`[0.0, 0.0, 0.0, 1.0]`. -/
def CLEAR_BLACK : ClearColorValue := { r := 0, g := 0, b := 0, a := 1 }

/-- One recorded command, carrying the arguments the source passes. -/
inductive RenderCmd where
  | beginBuffer (simultaneous_use : Bool)
  | beginRenderPass (framebuffer : Framebuffer) (render_area_offset : Nat × Nat)
      (render_area_extent : Extent2D) (clear_values : List ClearColorValue)
  | bindPipeline
  | bindVertexBuffers (first_binding : Nat) (buffers : List Buffer) (offsets : List Nat)
  | draw (vertex_count : Nat) (instance_count : Nat) (first_vertex : Nat) (first_instance : Nat)
  | endRenderPass
  | endBuffer
deriving DecidableEq

/-- Checks whether a recorded command is a vertex-buffer bind. -/
def RenderCmd.isVertexBufferBind : RenderCmd → Bool
  | RenderCmd.bindVertexBuffers _ _ _ => true
  | _ => false

/-- The command sequence the recording loop of `create_command_buffers`
in `src/app.rs` (lines 248-277) records into the buffer paired with
`framebuffer`: begin with `SIMULTANEOUS_USE`, begin the render pass over
the full extent with the single opaque-black clear value, bind the
graphics pipeline, draw 3 vertices / 1 instance, end the pass, end the
buffer.  It binds no vertex buffer. -/
def record_command_buffer (framebuffer : Framebuffer) (surface_extent : Extent2D) :
    List RenderCmd :=
  [ RenderCmd.beginBuffer true,
    RenderCmd.beginRenderPass framebuffer (0, 0) surface_extent [CLEAR_BLACK],
    RenderCmd.bindPipeline,
    RenderCmd.draw 3 1 0 0,
    RenderCmd.endRenderPass,
    RenderCmd.endBuffer ]

/-- The command sequence recorded per framebuffer by the
`create_command_buffers` in `src/sync.rs` (lines 69-119), which — unlike
the copy in `src/app.rs` that `VulkanApp::initialize` actually calls —
additionally binds the single vertex buffer at offset 0 between the
pipeline bind and the draw. -/
def sync_record_command_buffer (framebuffer : Framebuffer) (surface_extent : Extent2D)
    (vertex_buffer : Buffer) : List RenderCmd :=
  [ RenderCmd.beginBuffer true,
    RenderCmd.beginRenderPass framebuffer (0, 0) surface_extent [CLEAR_BLACK],
    RenderCmd.bindPipeline,
    RenderCmd.bindVertexBuffers 0 [vertex_buffer] [0],
    RenderCmd.draw 3 1 0 0,
    RenderCmd.endRenderPass,
    RenderCmd.endBuffer ]

/-- The command sequence that claim C3 states is recorded per
framebuffer at initialization, including the vertex-buffer bind at
offset 0; stated from the claim's words for comparison with
`record_command_buffer` (a refinement comparison, not a source
translation). -/
def claimed_recorded_sequence (framebuffer : Framebuffer) (surface_extent : Extent2D)
    (vertex_buffer : Buffer) : List RenderCmd :=
  [ RenderCmd.beginBuffer true,
    RenderCmd.beginRenderPass framebuffer (0, 0) surface_extent [CLEAR_BLACK],
    RenderCmd.bindPipeline,
    RenderCmd.bindVertexBuffers 0 [vertex_buffer] [0],
    RenderCmd.draw 3 1 0 0,
    RenderCmd.endRenderPass,
    RenderCmd.endBuffer ]

/-- The allocation step of `create_command_buffers`: the GPU API
returns exactly `command_buffer_count` primary command buffers
(`device.allocate_command_buffers`, called with
`framebuffers.len() as u32`). -/
def allocate_command_buffers (count : Nat) : List CommandBuffer :=
  (List.range count).map (fun i => { id := i })

/-- Translation of `create_command_buffers` (`src/app.rs` lines
230-280): allocate one buffer per framebuffer, then record into buffer
`i` the fixed sequence against `framebuffers[i]`. -/
def create_command_buffers (framebuffers : List Framebuffer) (surface_extent : Extent2D) :
    List (CommandBuffer × List RenderCmd) :=
  (allocate_command_buffers framebuffers.length).zip
    (framebuffers.map (fun framebuffer => record_command_buffer framebuffer surface_extent))

/-! The frame loop (`VulkanApp::draw_frame`, `src/app.rs` lines
79-138). -/

/-- The constant `MAX_FRAMES_IN_FLIGHT` (`src/app.rs` line 185). -/
def MAX_FRAMES_IN_FLIGHT : Nat := 2

/-- An opaque `vk::Semaphore` handle. -/
structure Semaphore where
  id : Nat
deriving DecidableEq

/-- An opaque `vk::Fence` handle. -/
structure Fence where
  id : Nat
deriving DecidableEq

/-- The one pipeline stage `draw_frame` uses. -/
inductive PipelineStageFlags where
  | COLOR_ATTACHMENT_OUTPUT
deriving DecidableEq

/-- The `vk::Result` codes relevant to acquisition / presentation. -/
inductive VkResult where
  | SUCCESS
  | SUBOPTIMAL_KHR
  | ERROR_OUT_OF_DATE_KHR
  | otherError (code : Nat)
deriving DecidableEq

/-- The contents of the `vk::SubmitInfo` that `draw_frame` builds
(`src/app.rs` lines 101-107). -/
structure SubmitInfo where
  wait_semaphores : List Semaphore
  wait_dst_stage_mask : List PipelineStageFlags
  command_buffers : List CommandBuffer
  signal_semaphores : List Semaphore
deriving DecidableEq

/-- The contents of the `vk::PresentInfoKHR` that `draw_frame` builds
(`src/app.rs` lines 126-129). -/
structure PresentInfo where
  wait_semaphores : List Semaphore
  image_indices : List Nat
deriving DecidableEq

/-- The fields of `VulkanApp` that `draw_frame` reads or writes. -/
structure VulkanApp where
  command_buffers : List CommandBuffer
  image_available_semaphores : List Semaphore
  render_finished_semaphores : List Semaphore
  in_flight_fences : List Fence
  current_frame : Nat
deriving DecidableEq

/-- How one `draw_frame` call ends: a fatal `expect` (terminating the
process with the given message) or continuation into the next frame
with the updated `current_frame`. -/
inductive FrameOutcome where
  | fatal (msg : String)
  | nextFrame (current_frame : Nat)
deriving DecidableEq

/-- Everything one `draw_frame` call does, in order: the fence it
waits on, the image index it acquired, the fence it resets just before
submission, the submission (submit info together with the fence it
signals), the present request, and the outcome.  `none` fields are
calls that were never reached because an earlier `expect` terminated
the process. -/
structure FrameTrace where
  waited_fence : Option Fence
  acquired_image : Option Nat
  reset_fence : Option Fence
  submitted : Option (SubmitInfo × Fence)
  present_request : Option PresentInfo
  outcome : FrameOutcome
deriving DecidableEq

/-- Translation of `VulkanApp::draw_frame` (`src/app.rs` lines 79-138).

The two GPU-API results are oracle inputs with the `ash` calling
convention: `acquire_result` is what
`swapchain_loader.acquire_next_image` returns (`Except.ok (index,
is_sub_optimal)` for `SUCCESS` / `SUBOPTIMAL_KHR`, `Except.error e` for
error codes such as `ERROR_OUT_OF_DATE_KHR`), and `present_result` is
what `swapchain_loader.queue_present` returns (`Except.ok
is_sub_optimal`, or `Except.error e`).  Both results are unwrapped with
`expect`, so any `Err` terminates the process; the suboptimal flag is
bound to `_is_sub_optimal` and never read.  The submission waits on the
current slot's image-available semaphore at the color-attachment-output
stage, passes the whole `self.command_buffers` vector, and signals the
current slot's render-finished semaphore and the just-reset fence. -/
def draw_frame (s : VulkanApp) (acquire_result : Except VkResult (Nat × Bool))
    (present_result : Except VkResult Bool) : FrameTrace :=
  let fence := s.in_flight_fences.getD s.current_frame { id := 0 }
  match acquire_result with
  | Except.error _ =>
    { waited_fence := some fence
      acquired_image := none
      reset_fence := none
      submitted := none
      present_request := none
      outcome := FrameOutcome.fatal ("Failed to acquire next image.") }
  | Except.ok (image_index, _is_sub_optimal) =>
    let wait_semaphores := [s.image_available_semaphores.getD s.current_frame { id := 0 }]
    let wait_stages := [PipelineStageFlags.COLOR_ATTACHMENT_OUTPUT]
    let signal_semaphores := [s.render_finished_semaphores.getD s.current_frame { id := 0 }]
    let submit_info : SubmitInfo :=
      { wait_semaphores := wait_semaphores
        wait_dst_stage_mask := wait_stages
        command_buffers := s.command_buffers
        signal_semaphores := signal_semaphores }
    let present_info : PresentInfo :=
      { wait_semaphores := signal_semaphores
        image_indices := [image_index] }
    match present_result with
    | Except.error _ =>
      { waited_fence := some fence
        acquired_image := some image_index
        reset_fence := some fence
        submitted := some (submit_info, fence)
        present_request := some present_info
        outcome := FrameOutcome.fatal ("Failed to execute queue present.") }
    | Except.ok _ =>
      { waited_fence := some fence
        acquired_image := some image_index
        reset_fence := some fence
        submitted := some (submit_info, fence)
        present_request := some present_info
        outcome := FrameOutcome.nextFrame ((s.current_frame + 1) % MAX_FRAMES_IN_FLIGHT) }

/-! Concrete inputs used by witnesses and counterexamples. -/

/-- A concrete `VulkanApp` state as produced by `VulkanApp::initialize`
with a three-image swapchain: three command buffers, the two sync-object
slots of `create_sync_objects`, frame counter at slot 0. -/
def app3 : VulkanApp :=
  { command_buffers := [{ id := 0 }, { id := 1 }, { id := 2 }]
    image_available_semaphores := [{ id := 10 }, { id := 11 }]
    render_finished_semaphores := [{ id := 20 }, { id := 21 }]
    in_flight_fences := [{ id := 30 }, { id := 31 }]
    current_frame := 0 }

/-- Degenerate capabilities used where only the format / present-mode
lists matter. -/
def zeroCaps : SurfaceCapabilitiesKHR :=
  { min_image_count := 0, max_image_count := 0,
    current_extent := { width := 0, height := 0 },
    min_image_extent := { width := 0, height := 0 },
    max_image_extent := { width := 0, height := 0 } }

/-- Support detail whose format list is the spec scenario
`[{R8G8B8A8_UNORM, SRGB_NONLINEAR}, {B8G8R8A8_SRGB, SRGB_NONLINEAR}]`. -/
def support_unorm_then_bgra : SwapChainSupportDetail :=
  { capabilities := zeroCaps
    formats := [{ format := VkFormat.R8G8B8A8_UNORM, color_space := ColorSpaceKHR.SRGB_NONLINEAR },
                { format := VkFormat.B8G8R8A8_SRGB, color_space := ColorSpaceKHR.SRGB_NONLINEAR }]
    present_modes := [] }

/-- Support detail whose format list is the spec scenario
`[{R8G8B8A8_UNORM, SRGB_NONLINEAR}]` alone. -/
def support_unorm_only : SwapChainSupportDetail :=
  { capabilities := zeroCaps
    formats := [{ format := VkFormat.R8G8B8A8_UNORM, color_space := ColorSpaceKHR.SRGB_NONLINEAR }]
    present_modes := [] }

/-- Support detail with present modes `[MAILBOX, FIFO]`. -/
def support_mailbox_fifo : SwapChainSupportDetail :=
  { capabilities := zeroCaps, formats := [],
    present_modes := [PresentModeKHR.MAILBOX, PresentModeKHR.FIFO] }

/-- Support detail with present modes `[FIFO]` alone. -/
def support_fifo_only : SwapChainSupportDetail :=
  { capabilities := zeroCaps, formats := [], present_modes := [PresentModeKHR.FIFO] }

/-- Support detail with a defined current extent (width below the
sentinel). -/
def support_defined_extent : SwapChainSupportDetail :=
  { capabilities :=
      { min_image_count := 2, max_image_count := 4,
        current_extent := { width := 800, height := 600 },
        min_image_extent := { width := 1, height := 1 },
        max_image_extent := { width := 4096, height := 4096 } }
    formats := [], present_modes := [] }

/-- Capabilities with `min_image_count = 5` but `max_image_count = 2`
(no real driver reports this, but the claim quantifies over every
capabilities value). -/
def caps_min5_max2 : SurfaceCapabilitiesKHR :=
  { min_image_count := 5, max_image_count := 2,
    current_extent := { width := 0, height := 0 },
    min_image_extent := { width := 0, height := 0 },
    max_image_extent := { width := 0, height := 0 } }

/-- Ordinary capabilities with `min_image_count = 2`,
`max_image_count = 3`. -/
def caps_min2_max3 : SurfaceCapabilitiesKHR :=
  { min_image_count := 2, max_image_count := 3,
    current_extent := { width := 0, height := 0 },
    min_image_extent := { width := 0, height := 0 },
    max_image_extent := { width := 0, height := 0 } }

/-- A device that fails suitability: no queue family supports
presentation. -/
def unsuitable_device : PhysicalDevice :=
  { queue_families := [{ queue_count := 1, supports_graphics := true, supports_present := false }]
    available_extensions := ["VK_KHR_swapchain"]
    formats := [{ format := VkFormat.B8G8R8A8_SRGB, color_space := ColorSpaceKHR.SRGB_NONLINEAR }]
    present_modes := [PresentModeKHR.FIFO] }

/-- A device that passes every suitability check. -/
def suitable_device : PhysicalDevice :=
  { queue_families := [{ queue_count := 1, supports_graphics := true, supports_present := true }]
    available_extensions := ["VK_KHR_swapchain"]
    formats := [{ format := VkFormat.B8G8R8A8_SRGB, color_space := ColorSpaceKHR.SRGB_NONLINEAR }]
    present_modes := [PresentModeKHR.FIFO] }

/-- A concrete framebuffer used by the claim-C3 counterexample. -/
def fb0 : Framebuffer :=
  { attachment := { image := { id := 0 } }, width := 1280, height := 720, layers := 1 }

/-! Helper lemmas shared by the claim theorems. -/

/-- A general fact about `List.find?`: it returns the element after a
prefix on which the predicate is everywhere false. -/
theorem find?_append_first {α : Type} (p : α → Bool) (l1 : List α) (a : α) (l2 : List α)
    (hneg : ∀ b ∈ l1, p b = false) (ha : p a = true) :
    List.find? p (l1 ++ a :: l2) = some a := by
  induction l1 with
  | nil => simpa using List.find?_cons_of_pos _ ha
  | cons b l ih =>
    have hb : ¬ p b = true := by simp [hneg b (by simp)]
    rw [List.cons_append, List.find?_cons_of_neg _ hb]
    exact ih (fun c hc => hneg c (by simp [hc]))

/-- The queue-family scan populates a graphics index exactly when the
accumulator already had one or some scanned family has `queue_count > 0`
and supports graphics (the early break can only fire once the graphics
index is populated, so it never hides a later graphics family). -/
theorem find_queue_family_loop_graphics (fams : List QueueFamilyProperties) :
    ∀ (index : Nat) (acc : QueueFamilyIndices),
      ((find_queue_family_loop fams index acc).graphics_family.isSome = true ↔
        (acc.graphics_family.isSome = true
          ∨ ∃ qf ∈ fams, 0 < qf.queue_count ∧ qf.supports_graphics = true)) := by
  induction fams with
  | nil => intro index acc; simp [find_queue_family_loop]
  | cons qf rest ih =>
    intro index acc
    simp only [find_queue_family_loop]
    split_ifs with h1 h2 h3 <;>
      (simp_all [QueueFamilyIndices.is_complete, List.mem_cons]; all_goals aesop)

/-- The analogue of `find_queue_family_loop_graphics` for the
presentation index. -/
theorem find_queue_family_loop_present (fams : List QueueFamilyProperties) :
    ∀ (index : Nat) (acc : QueueFamilyIndices),
      ((find_queue_family_loop fams index acc).present_family.isSome = true ↔
        (acc.present_family.isSome = true
          ∨ ∃ qf ∈ fams, 0 < qf.queue_count ∧ qf.supports_present = true)) := by
  induction fams with
  | nil => intro index acc; simp [find_queue_family_loop]
  | cons qf rest ih =>
    intro index acc
    simp only [find_queue_family_loop]
    split_ifs with h1 h2 h3 <;>
      (simp_all [QueueFamilyIndices.is_complete, List.mem_cons]; all_goals aesop)

/-- The scan of `find_queue_family` ends complete exactly when the
device has a usable graphics-capable family and a usable
presentation-capable family. -/
theorem find_queue_family_is_complete (d : PhysicalDevice) :
    (find_queue_family d).is_complete = true ↔
      ((∃ qf ∈ d.queue_families, 0 < qf.queue_count ∧ qf.supports_graphics = true)
        ∧ (∃ qf ∈ d.queue_families, 0 < qf.queue_count ∧ qf.supports_present = true)) := by
  unfold find_queue_family QueueFamilyIndices.is_complete
  rw [Bool.and_eq_true, find_queue_family_loop_graphics, find_queue_family_loop_present]
  simp

/-- The suitability test of `is_physical_device_suitable` unfolded into
its four requirements. -/
theorem is_physical_device_suitable_iff (d : PhysicalDevice) :
    is_physical_device_suitable d = true ↔
      ((∃ qf ∈ d.queue_families, 0 < qf.queue_count ∧ qf.supports_graphics = true)
        ∧ (∃ qf ∈ d.queue_families, 0 < qf.queue_count ∧ qf.supports_present = true)
        ∧ (∀ ext ∈ DEVICE_EXTENSIONS, ext ∈ d.available_extensions)
        ∧ d.formats ≠ [] ∧ d.present_modes ≠ []) := by
  unfold is_physical_device_suitable check_device_extension_support
  cases hext : DEVICE_EXTENSIONS.all (fun ext => d.available_extensions.contains ext) with
  | false =>
    have hnot : ¬ ∀ ext ∈ DEVICE_EXTENSIONS, ext ∈ d.available_extensions := by
      intro hall
      have hall2 : DEVICE_EXTENSIONS.all (fun ext => d.available_extensions.contains ext) = true :=
        List.all_eq_true.mpr (fun x hx => List.elem_iff.mpr (hall x hx))
      rw [hext] at hall2
      exact Bool.false_ne_true hall2
    simp only [hext, Bool.and_false, Bool.false_and, if_false, Bool.false_eq_true, false_iff]
    rintro ⟨-, -, hall, -⟩
    exact hnot hall
  | true =>
    have hmem : ∀ ext ∈ DEVICE_EXTENSIONS, ext ∈ d.available_extensions :=
      fun x hx => List.elem_iff.mp (List.all_eq_true.mp hext x hx)
    simp only [hext, if_true, Bool.and_true, Bool.true_and]
    rw [Bool.and_eq_true, Bool.and_eq_true, find_queue_family_is_complete]
    simp only [Bool.not_eq_true', Bool.and_eq_true, Bool.not_eq_false]
    rw [List.isEmpty_eq_false_iff_exists_mem, List.isEmpty_eq_false_iff_exists_mem]
    constructor
    · rintro ⟨⟨hg, hp⟩, ⟨f, hf⟩, ⟨m, hm⟩⟩
      exact ⟨hg, hp, hmem, List.ne_nil_of_mem hf, List.ne_nil_of_mem hm⟩
    · rintro ⟨hg, hp, -, hf, hm⟩
      obtain ⟨f, hf2⟩ := List.exists_mem_of_ne_nil _ hf
      obtain ⟨m, hm2⟩ := List.exists_mem_of_ne_nil _ hm
      exact ⟨⟨hg, hp⟩, ⟨f, hf2⟩, ⟨m, hm2⟩⟩

/-! The claim theorems. -/

/-- Claim C1 (counterexample).  The claim states that `OUT_OF_DATE`
from acquisition or presentation is recovered locally and never
terminates the process; in the code both results are unwrapped with
`expect`, so at the concrete state `app3` an `ERROR_OUT_OF_DATE_KHR`
from acquisition ends the frame with a fatal outcome (and nothing is
submitted), and an `ERROR_OUT_OF_DATE_KHR` from presentation does too. -/
theorem draw_frame_staleness_terminates :
    (draw_frame app3 (Except.error VkResult.ERROR_OUT_OF_DATE_KHR) (Except.ok false)).outcome
        = FrameOutcome.fatal ("Failed to acquire next image.")
    ∧ (draw_frame app3 (Except.error VkResult.ERROR_OUT_OF_DATE_KHR) (Except.ok false)).submitted
        = none
    ∧ (draw_frame app3 (Except.ok (0, false))
          (Except.error VkResult.ERROR_OUT_OF_DATE_KHR)).outcome
        = FrameOutcome.fatal ("Failed to execute queue present.") := by
  exact ⟨rfl, rfl, rfl⟩

/-- Claim C1 (as amended).  For every app state and every pair of
GPU-API results: an acquisition error (which is how the API surfaces
`OUT_OF_DATE`) makes `draw_frame` terminate the process with the
acquisition `expect` message; a presentation error after a successful
acquisition terminates with the presentation `expect` message; and when
both calls succeed (including `SUBOPTIMAL`, whose flag is ignored) the
loop simply advances the frame counter modulo `MAX_FRAMES_IN_FLIGHT` —
no swapchain, pipeline, or frame-resource reconstruction exists. -/
theorem draw_frame_outcome_characterization :
    ∀ (s : VulkanApp) (acquire_result : Except VkResult (Nat × Bool))
      (present_result : Except VkResult Bool),
      ((∃ e, acquire_result = Except.error e) →
          (draw_frame s acquire_result present_result).outcome =
            FrameOutcome.fatal ("Failed to acquire next image."))
      ∧ (∀ image_index sub e, acquire_result = Except.ok (image_index, sub) →
          present_result = Except.error e →
          (draw_frame s acquire_result present_result).outcome =
            FrameOutcome.fatal ("Failed to execute queue present."))
      ∧ (∀ image_index sub psub, acquire_result = Except.ok (image_index, sub) →
          present_result = Except.ok psub →
          (draw_frame s acquire_result present_result).outcome =
            FrameOutcome.nextFrame ((s.current_frame + 1) % MAX_FRAMES_IN_FLIGHT)) := by
  intro s acquire_result present_result
  refine ⟨?_, ?_, ?_⟩
  · rintro ⟨e, rfl⟩
    rfl
  · rintro image_index sub e rfl rfl
    rfl
  · rintro image_index sub psub rfl rfl
    rfl

/-- Witness for `draw_frame_outcome_characterization` at the concrete
state `app3` with a successful suboptimal-free frame. -/
theorem draw_frame_outcome_characterization_witness :
    (draw_frame app3 (Except.ok (1, false)) (Except.ok false)).outcome =
      FrameOutcome.nextFrame ((app3.current_frame + 1) % MAX_FRAMES_IN_FLIGHT) :=
  (draw_frame_outcome_characterization app3 (Except.ok (1, false)) (Except.ok false)).2.2
    1 false false rfl rfl

/-- Claim C2 (code bug, evaluated at the failing input).  At the state
`app3` (three command buffers, ids 0/1/2) with acquisition returning
image index 1, the submission built by `draw_frame` waits on slot 0's
image-available semaphore at the color-attachment-output stage and
signals slot 0's render-finished semaphore and the just-reset fence as
the claim says, but its command-buffer list is the whole vector
`[0, 1, 2]` — `src/app.rs` line 104 passes `&self.command_buffers` —
and not the single buffer `[1]` associated with the acquired index. -/
theorem draw_frame_submits_every_command_buffer :
    (draw_frame app3 (Except.ok (1, false)) (Except.ok false)).submitted =
      some ({ wait_semaphores := [{ id := 10 }]
              wait_dst_stage_mask := [PipelineStageFlags.COLOR_ATTACHMENT_OUTPUT]
              command_buffers := [{ id := 0 }, { id := 1 }, { id := 2 }]
              signal_semaphores := [{ id := 20 }] }, { id := 30 })
    ∧ [({ id := 0 } : CommandBuffer), { id := 1 }, { id := 2 }] ≠ [{ id := 1 }] := by
  exact ⟨rfl, by decide⟩

/-- Claim C3 (counterexample).  The sequence recorded at initialization
(the `create_command_buffers` local to `src/app.rs`) differs from the
claimed seven-step sequence: at a concrete framebuffer and extent the
recorded list is not the claimed list, because the vertex-buffer bind
step is absent. -/
theorem recorded_sequence_lacks_vertex_buffer_bind :
    record_command_buffer fb0 { width := 1280, height := 720 } ≠
      claimed_recorded_sequence fb0 { width := 1280, height := 720 } { id := 0 } := by
  decide

/-- Claim C3 (as amended).  For every framebuffer, extent and vertex
buffer: the sequence recorded at initialization is exactly the claimed
sequence with the vertex-buffer-bind step removed (begin buffer with
simultaneous use, begin render pass with the single opaque-black clear
against that framebuffer, bind pipeline, draw 3 vertices / 1 instance,
end render pass, end buffer), and contains no vertex-buffer bind at
all; the unused `create_command_buffers` in `src/sync.rs` records
exactly the claimed sequence, vertex-buffer bind at offset 0 included. -/
theorem record_command_buffer_sequences :
    ∀ (framebuffer : Framebuffer) (surface_extent : Extent2D) (vertex_buffer : Buffer),
      record_command_buffer framebuffer surface_extent =
        (claimed_recorded_sequence framebuffer surface_extent vertex_buffer).eraseP
          RenderCmd.isVertexBufferBind
      ∧ sync_record_command_buffer framebuffer surface_extent vertex_buffer =
          claimed_recorded_sequence framebuffer surface_extent vertex_buffer
      ∧ (record_command_buffer framebuffer surface_extent).all
          (fun c => !c.isVertexBufferBind) = true := by
  intro framebuffer surface_extent vertex_buffer
  refine ⟨?_, rfl, rfl⟩
  simp [record_command_buffer, claimed_recorded_sequence, List.eraseP,
    RenderCmd.isVertexBufferBind]

/-- Claim C4.  Format selection returns the first entry satisfying the
B8G8R8A8_SRGB / SRGB_NONLINEAR preference when one exists, otherwise
the first entry of a non-empty list; and on the two spec scenarios it
returns the second entry of `support_unorm_then_bgra` and the only
entry of `support_unorm_only`. -/
theorem choose_format_first_preferred_or_first :
    (∀ (d : SwapChainSupportDetail) (l1 l2 : List SurfaceFormatKHR) (f : SurfaceFormatKHR),
        d.formats = l1 ++ f :: l2 → isPreferredFormat f = true →
        (∀ g ∈ l1, isPreferredFormat g = false) →
        choose_format d = some f)
    ∧ (∀ (d : SwapChainSupportDetail) (h : d.formats ≠ []),
        (∀ g ∈ d.formats, isPreferredFormat g = false) →
        choose_format d = some (d.formats.head h))
    ∧ choose_format support_unorm_then_bgra =
        some { format := VkFormat.B8G8R8A8_SRGB, color_space := ColorSpaceKHR.SRGB_NONLINEAR }
    ∧ choose_format support_unorm_only =
        some { format := VkFormat.R8G8B8A8_UNORM, color_space := ColorSpaceKHR.SRGB_NONLINEAR } := by
  refine ⟨?_, ?_, by decide, by decide⟩
  · intro d l1 l2 f hd hf hneg
    unfold choose_format
    rw [hd, find?_append_first _ _ _ _ hneg hf]
  · intro d h hneg
    unfold choose_format
    rw [List.find?_eq_none.mpr (fun g hg => by simp [hneg g hg])]
    obtain ⟨x, xs, hx⟩ := List.exists_cons_of_ne_nil h
    simp [hx]

/-- Witness for `choose_format_first_preferred_or_first`: the fallback
branch at the concrete one-element list. -/
theorem choose_format_first_preferred_or_first_witness :
    choose_format support_unorm_only = some (support_unorm_only.formats.head (by decide)) :=
  choose_format_first_preferred_or_first.2.1 support_unorm_only (by decide) (by decide)

/-- Claim C5.  Present-mode selection returns `MAILBOX` exactly when
the list contains it and `FIFO` otherwise, including the two concrete
spec scenarios. -/
theorem choose_present_mode_mailbox_else_fifo :
    (∀ d : SwapChainSupportDetail, PresentModeKHR.MAILBOX ∈ d.present_modes →
        choose_present_mode d = PresentModeKHR.MAILBOX)
    ∧ (∀ d : SwapChainSupportDetail, PresentModeKHR.MAILBOX ∉ d.present_modes →
        choose_present_mode d = PresentModeKHR.FIFO)
    ∧ choose_present_mode support_mailbox_fifo = PresentModeKHR.MAILBOX
    ∧ choose_present_mode support_fifo_only = PresentModeKHR.FIFO := by
  refine ⟨?_, ?_, by decide, by decide⟩
  · intro d hmem
    unfold choose_present_mode
    cases hfind : d.present_modes.find? (fun m => m == PresentModeKHR.MAILBOX) with
    | some m =>
      have := List.find?_some hfind
      simp only [beq_iff_eq] at this
      simp [this]
    | none =>
      exact absurd (List.find?_eq_none.mp hfind _ hmem) (by simp)
  · intro d hmem
    unfold choose_present_mode
    rw [List.find?_eq_none.mpr (fun m hm => by simp; rintro rfl; exact hmem hm)]

/-- Witness for `choose_present_mode_mailbox_else_fifo` at the concrete
list `[MAILBOX, FIFO]`. -/
theorem choose_present_mode_mailbox_else_fifo_witness :
    choose_present_mode support_mailbox_fifo = PresentModeKHR.MAILBOX :=
  choose_present_mode_mailbox_else_fifo.1 support_mailbox_fifo (by decide)

/-- Claim C6.  Extent selection returns the current extent verbatim
when its width differs from the `u32::MAX` sentinel; otherwise (under
the capability guarantee `min_image_extent ≤ max_image_extent`
component-wise) it returns the requested 1280 x 720 window size clamped
component-wise into `[min_image_extent, max_image_extent]`: the result
lies in the interval, equals the requested size when that is inside the
interval, and equals the violated bound when the requested size lies
outside. -/
theorem choose_extent_current_or_clamped (d : SwapChainSupportDetail)
    (hw : d.capabilities.min_image_extent.width ≤ d.capabilities.max_image_extent.width)
    (hh : d.capabilities.min_image_extent.height ≤ d.capabilities.max_image_extent.height) :
    (d.capabilities.current_extent.width ≠ U32_MAX →
        choose_extent d = d.capabilities.current_extent)
    ∧ (d.capabilities.current_extent.width = U32_MAX →
        (d.capabilities.min_image_extent.width ≤ (choose_extent d).width
          ∧ (choose_extent d).width ≤ d.capabilities.max_image_extent.width
          ∧ (d.capabilities.min_image_extent.width ≤ 1280 →
              1280 ≤ d.capabilities.max_image_extent.width → (choose_extent d).width = 1280)
          ∧ (1280 < d.capabilities.min_image_extent.width →
              (choose_extent d).width = d.capabilities.min_image_extent.width)
          ∧ (d.capabilities.max_image_extent.width < 1280 →
              (choose_extent d).width = d.capabilities.max_image_extent.width))
        ∧ (d.capabilities.min_image_extent.height ≤ (choose_extent d).height
          ∧ (choose_extent d).height ≤ d.capabilities.max_image_extent.height
          ∧ (d.capabilities.min_image_extent.height ≤ 720 →
              720 ≤ d.capabilities.max_image_extent.height → (choose_extent d).height = 720)
          ∧ (720 < d.capabilities.min_image_extent.height →
              (choose_extent d).height = d.capabilities.min_image_extent.height)
          ∧ (d.capabilities.max_image_extent.height < 720 →
              (choose_extent d).height = d.capabilities.max_image_extent.height))) := by
  constructor
  · intro hcur
    simp [choose_extent, hcur]
  · intro hcur
    simp only [choose_extent, hcur, ne_eq, not_true_eq_false, if_false]
    refine ⟨⟨?_, ?_, ?_, ?_, ?_⟩, ⟨?_, ?_, ?_, ?_, ?_⟩⟩ <;> omega

/-- Witness for `choose_extent_current_or_clamped` at the concrete
defined-extent capabilities. -/
theorem choose_extent_current_or_clamped_witness :
    choose_extent support_defined_extent = support_defined_extent.capabilities.current_extent :=
  (choose_extent_current_or_clamped support_defined_extent (by decide) (by decide)).1 (by decide)

/-- Claim C7 (counterexample).  At the capabilities value with
`min_image_count = 5` and `max_image_count = 2` the requested image
count is `min (5 + 1) 2 = 2`, which lies strictly below
`min_image_count`, so the claimed lower bound fails for this
capabilities value. -/
theorem swapchain_image_count_below_min :
    swapchain_image_count caps_min5_max2 = 2
    ∧ swapchain_image_count caps_min5_max2 < caps_min5_max2.min_image_count := by
  decide

/-- Claim C7 (as amended).  For every capabilities value whose
`min_image_count + 1` stays within the `u32` range and which satisfies
the GPU-API guarantee that a non-zero `max_image_count` is at least
`min_image_count`: the requested count equals `min_image_count + 1`
clamped above by `max_image_count` when `max_image_count > 0` (and then
lies within `[min_image_count, max min_image_count max_image_count]`),
and equals `min_image_count + 1` with no upper clamp when
`max_image_count = 0` (and is then at least `min_image_count`). -/
theorem swapchain_image_count_bounds (caps : SurfaceCapabilitiesKHR)
    (hrange : caps.min_image_count + 1 < U32_MOD)
    (hvalid : caps.max_image_count = 0 ∨ caps.min_image_count ≤ caps.max_image_count) :
    (0 < caps.max_image_count →
        swapchain_image_count caps = min (caps.min_image_count + 1) caps.max_image_count
        ∧ caps.min_image_count ≤ swapchain_image_count caps
        ∧ swapchain_image_count caps ≤ max caps.min_image_count caps.max_image_count)
    ∧ (caps.max_image_count = 0 →
        swapchain_image_count caps = caps.min_image_count + 1
        ∧ caps.min_image_count ≤ swapchain_image_count caps) := by
  have hmod : (caps.min_image_count + 1) % U32_MOD = caps.min_image_count + 1 :=
    Nat.mod_eq_of_lt hrange
  constructor
  · intro hpos
    unfold swapchain_image_count
    rw [if_pos hpos, hmod]
    omega
  · intro hzero
    unfold swapchain_image_count
    rw [if_neg (by omega), hmod]
    omega

/-- Witness for `swapchain_image_count_bounds` at the concrete
capabilities `caps_min2_max3`. -/
theorem swapchain_image_count_bounds_witness :
    swapchain_image_count caps_min2_max3 =
      min (caps_min2_max3.min_image_count + 1) caps_min2_max3.max_image_count
    ∧ caps_min2_max3.min_image_count ≤ swapchain_image_count caps_min2_max3
    ∧ swapchain_image_count caps_min2_max3 ≤
        max caps_min2_max3.min_image_count caps_min2_max3.max_image_count :=
  (swapchain_image_count_bounds caps_min2_max3 (by decide) (Or.inr (by decide))).1 (by decide)

/-- Claim C8.  Suitability is exactly: a usable graphics-capable queue
family, a usable presentation-capable queue family, every required
device extension available, and non-empty format and present-mode
lists; `pick_physical_device` returns the first suitable device in
enumeration order, and returns `none` (the fatal
"Failed to find a suitable GPU!" path) exactly when no enumerated
device is suitable. -/
theorem pick_physical_device_first_suitable :
    (∀ d : PhysicalDevice, is_physical_device_suitable d = true ↔
        ((∃ qf ∈ d.queue_families, 0 < qf.queue_count ∧ qf.supports_graphics = true)
          ∧ (∃ qf ∈ d.queue_families, 0 < qf.queue_count ∧ qf.supports_present = true)
          ∧ (∀ ext ∈ DEVICE_EXTENSIONS, ext ∈ d.available_extensions)
          ∧ d.formats ≠ [] ∧ d.present_modes ≠ []))
    ∧ (∀ (l1 l2 : List PhysicalDevice) (d : PhysicalDevice),
        is_physical_device_suitable d = true →
        (∀ e ∈ l1, is_physical_device_suitable e = false) →
        pick_physical_device (l1 ++ d :: l2) = some d)
    ∧ (∀ devices : List PhysicalDevice,
        (∀ d ∈ devices, is_physical_device_suitable d = false) →
        pick_physical_device devices = none) := by
  refine ⟨is_physical_device_suitable_iff, ?_, ?_⟩
  · intro l1 l2 d hd hneg
    exact find?_append_first _ _ _ _ hneg hd
  · intro devices hneg
    exact List.find?_eq_none.mpr (fun d hd => by simp [hneg d hd])

/-- Witness for `pick_physical_device_first_suitable`: on the concrete
enumeration `[unsuitable_device, suitable_device]` selection skips the
unsuitable device and returns the suitable one. -/
theorem pick_physical_device_first_suitable_witness :
    pick_physical_device [unsuitable_device, suitable_device] = some suitable_device :=
  pick_physical_device_first_suitable.2.1 [unsuitable_device] [] suitable_device
    (by decide) (by decide)

/-- Claim C9.  For every swapchain image list and extent, the
construction chain at initialization (and after any reconstruction,
which runs the same functions) produces as many image views as images,
as many framebuffers as image views, and as many recorded command
buffers as framebuffers. -/
theorem swapchain_resource_counts_equal :
    ∀ (images : List Image) (extent : Extent2D),
      (create_image_views images).length = images.length
      ∧ (create_framebuffers (create_image_views images) extent).length =
          (create_image_views images).length
      ∧ (create_command_buffers (create_framebuffers (create_image_views images) extent)
            extent).length =
          (create_framebuffers (create_image_views images) extent).length := by
  intro images extent
  simp [create_image_views, create_framebuffers, create_command_buffers,
    allocate_command_buffers, List.length_zip]

/-- Claim C10.  Format selection fails (the `unwrap` in the fallback
branch) exactly on an empty format list, and on the program's call path
— where the chosen device was returned by `pick_physical_device` and
hence passed the non-empty-formats suitability check — the selection
always returns a value. -/
theorem choose_format_none_iff_no_formats :
    (∀ d : SwapChainSupportDetail, choose_format d = none ↔ d.formats = [])
    ∧ (∀ (devices : List PhysicalDevice) (d : PhysicalDevice) (caps : SurfaceCapabilitiesKHR),
        pick_physical_device devices = some d →
        (choose_format { capabilities := caps, formats := d.formats,
                         present_modes := d.present_modes }).isSome = true) := by
  have hnone : ∀ d : SwapChainSupportDetail, choose_format d = none ↔ d.formats = [] := by
    intro d
    unfold choose_format
    cases hform : d.formats with
    | nil => simp
    | cons f rest =>
      cases hfind : List.find? isPreferredFormat (f :: rest) with
      | some g => simp
      | none => simp
  refine ⟨hnone, ?_⟩
  intro devices d caps hpick
  have hsuit : is_physical_device_suitable d = true := List.find?_some hpick
  have hformats : d.formats ≠ [] := ((is_physical_device_suitable_iff d).mp hsuit).2.2.2.1
  rw [Option.isSome_iff_ne_none]
  intro hcontra
  exact hformats ((hnone _).mp hcontra)

/-- Witness for `choose_format_none_iff_no_formats`: on the device
picked from the concrete one-element enumeration, format selection
returns a value. -/
theorem choose_format_none_iff_no_formats_witness :
    (choose_format { capabilities := zeroCaps, formats := suitable_device.formats,
                     present_modes := suitable_device.present_modes }).isSome = true :=
  choose_format_none_iff_no_formats.2 [suitable_device] suitable_device zeroCaps (by decide)

end Antithesis
